import Mathlib

/-!
# Verification of the Chess-Bot match lifecycle against its specification

Shallow embedding of the two source files of the repository:

* `bot.py` — the `Game` wrapper, the `GameEncoder` JSON serializer, the
  `convert_game_state_to_game` deserializer, and the command handlers of the
  `Chess` cog (`new`, `decline`, `cancel`, `accept`, `move`, `surrender`).
* `storage/postgres.py` — the `PostgresStorage` table model and its SQL
  operations, modelled as pure functions over an explicit database state.

Modelling conventions:

* Python ints (Discord ids, squares, bitboards, counters) are `Nat`; every
  value the program stores in these positions is a non-negative integer.
* The SQL `float` division used for `win_ratio` is modelled over `ℚ`
  (exact rational arithmetic; the `numeric(5,3)` column rounding is not
  modelled — none of the values the claims mention are affected by it).
* A row set returned by `fetchone` without `ORDER BY` is modelled as the
  first matching row in insertion order.
* A Python exception that escapes a handler is an explicit `Outcome.exc`
  result carrying the exception's name.
* The third-party rules engine (python-chess) is external to the repository;
  its `Move` value type and `Move.from_uci` parser are embedded faithfully
  (the handlers branch on their exact behaviour), while the
  position-dependent services (`parse_san`, `legal_moves`, `san`, `push`,
  `is_stalemate`, `is_checkmate`) are an abstract `RulesEngine` parameter,
  exactly the black-box boundary the specification draws in its §6.
-/

namespace ChessBot

/-! ## python-chess `Move`

`chess.Move` is a dataclass with fields `from_square`, `to_square`,
`promotion` (piece type or `None`) and `drop` (piece type or `None`). -/

structure Move where
  from_square : Nat
  to_square : Nat
  promotion : Option Nat
  drop : Option Nat
deriving DecidableEq, Repr

/-- `Move.null()`: the move `a1a1` with no promotion and no drop. -/
def Move.null : Move := ⟨0, 0, none, none⟩

/-- Python truthiness of a `Move`:
`bool(self.from_square or self.to_square or self.promotion or self.drop)`.
`None` is falsy and `0` is falsy; a present promotion or drop is a piece
type in `1..6` and hence truthy, but the embedding tests the stored number
exactly as Python does. Only the null move is falsy. -/
def Move.truthy (m : Move) : Bool :=
  decide (m.from_square ≠ 0) || decide (m.to_square ≠ 0) ||
    (match m.promotion with | some n => decide (n ≠ 0) | none => false) ||
    (match m.drop with | some n => decide (n ≠ 0) | none => false)

/-- `PIECE_SYMBOLS.index(c)` for `PIECE_SYMBOLS = [None, "p", "n", "b", "r",
"q", "k"]`: the piece type of a symbol character, `none` for the
`ValueError` of a character that is not a piece symbol. -/
def pieceSymbolIndex (c : Char) : Option Nat :=
  if c = 'p' then some 1 else if c = 'n' then some 2
  else if c = 'b' then some 3 else if c = 'r' then some 4
  else if c = 'q' then some 5 else if c = 'k' then some 6 else none

/-- `SQUARE_NAMES.index(fr)` for a two-character square name: file letter
`a..h` and rank digit `1..8` give `rank * 8 + file`; `none` for the
`ValueError` of any other pair. -/
def squareNameIndex (f r : Char) : Option Nat :=
  if 'a' ≤ f ∧ f ≤ 'h' then
    if '1' ≤ r ∧ r ≤ '8' then
      some ((r.toNat - '1'.toNat) * 8 + (f.toNat - 'a'.toNat))
    else none
  else none

/-- `chess.Move.from_uci`, translated clause for clause:
`"0000"` parses to the null move; a four-character string with `'@'` second
is a drop (`P@e4`, piece symbol lowercased); four or five characters are
`from`/`to` squares with an optional promotion symbol (not lowercased), and
equal squares are rejected; anything else raises `InvalidMoveError`
(modelled as `none`). -/
def Move.from_uci (s : String) : Option Move :=
  if s = "0000" then some Move.null
  else
    match s.data with
    | [p, '@', f, r] => do
        let d ← pieceSymbolIndex p.toLower
        let sq ← squareNameIndex f r
        pure ⟨sq, sq, none, some d⟩
    | [a, b, c, d] => do
        let fs ← squareNameIndex a b
        let ts ← squareNameIndex c d
        if fs = ts then none else pure ⟨fs, ts, none, none⟩
    | [a, b, c, d, p] => do
        let fs ← squareNameIndex a b
        let ts ← squareNameIndex c d
        let pr ← pieceSymbolIndex p
        if fs = ts then none else pure ⟨fs, ts, some pr, none⟩
    | _ => none

/-! ## python-chess `Board` instance state

The instance attributes of `chess.Board` (what its `__dict__` holds and what
`GameEncoder` therefore serializes): the `BaseBoard` piece bitboards, the
occupancy-by-colour list (`occupied_co`, indexed `[BLACK, WHITE]`), and the
`Board` bookkeeping fields.  The private undo stack `_stack` is omitted from
the model: it only supports `pop`, which no handler of this repository calls,
and no claim mentions it. -/

structure Board where
  occupied_co : List Nat
  pawns : Nat
  knights : Nat
  bishops : Nat
  rooks : Nat
  queens : Nat
  kings : Nat
  promoted : Nat
  occupied : Nat
  chess960 : Bool
  ep_square : Option Nat
  move_stack : List Move
  turn : Bool
  castling_rights : Nat
  halfmove_clock : Nat
  fullmove_number : Nat
deriving DecidableEq, Repr

/-- `chess.Board()`: the standard starting position
(`_reset_board` bitboards plus `reset()` bookkeeping). -/
def Board.init : Board where
  occupied_co := [0xFFFF000000000000, 0xFFFF]
  pawns := 0x00FF00000000FF00
  knights := 0x4200000000000042
  bishops := 0x2400000000000024
  rooks := 0x8100000000000081
  queens := 0x0800000000000008
  kings := 0x1000000000000010
  promoted := 0
  occupied := 0xFFFF00000000FFFF
  chess960 := false
  ep_square := none
  move_stack := []
  turn := true
  castling_rights := 0x8100000000000081
  halfmove_clock := 0
  fullmove_number := 1

/-! ## `Game` (bot.py)

`Game.__init__(self, white_id, black_id, match_id, rated=True,
last_move_san=None)` stores those five fields plus a fresh `Board()`.
`convert_game_state_to_game` may additionally attach attributes named
`white` and `black` (Discord member objects looked up by id) when the JSON
has such keys; they are modelled as two optional id fields defaulting to
absent.  Member lookup (`bot.get_user`) is modelled as returning the id
itself. -/

structure Game where
  white_id : Nat
  black_id : Nat
  match_id : Nat
  rated : Bool := true
  last_move_san : Option String := none
  board : Board := Board.init
  white : Option Nat := none
  black : Option Nat := none
deriving DecidableEq, Repr

/-! ## JSON values

The textual `game_state` column is modelled at the level of the JSON value
that `json.dumps` writes and `json.loads` reads back.  Numbers are `Nat`
(every number this program serializes is a non-negative integer); object
fields are an ordered key/value list with distinct keys as produced by
serializing a Python `dict`. -/

inductive Jval where
  | null
  | bool (b : Bool)
  | num (n : Nat)
  | str (s : String)
  | arr (xs : List Jval)
  | obj (fields : List (String × Jval))

/-- First value stored under a key of a JSON object's field list. -/
def jlookup : List (String × Jval) → String → Option Jval
  | [], _ => none
  | (k, v) :: rest, key => if k = key then some v else jlookup rest key

/-- An optional number as JSON: `None` serializes to `null`. -/
def encodeOptNat : Option Nat → Jval
  | some n => .num n
  | none => .null

/-- An optional string as JSON: `None` serializes to `null`. -/
def encodeOptStr : Option String → Jval
  | some s => .str s
  | none => .null

/-- `GameEncoder` on a `Move` (via `Move.__dict__`). -/
def encodeMove (m : Move) : Jval :=
  .obj [("from_square", .num m.from_square), ("to_square", .num m.to_square),
        ("promotion", encodeOptNat m.promotion), ("drop", encodeOptNat m.drop)]

/-- `GameEncoder` on a `Board` (via `Board.__dict__`): every instance
attribute, with the move stack as a list of serialized moves. -/
def encodeBoard (b : Board) : Jval :=
  .obj [("occupied_co", .arr (b.occupied_co.map .num)),
        ("pawns", .num b.pawns), ("knights", .num b.knights),
        ("bishops", .num b.bishops), ("rooks", .num b.rooks),
        ("queens", .num b.queens), ("kings", .num b.kings),
        ("promoted", .num b.promoted), ("occupied", .num b.occupied),
        ("chess960", .bool b.chess960),
        ("ep_square", encodeOptNat b.ep_square),
        ("move_stack", .arr (b.move_stack.map encodeMove)),
        ("turn", .bool b.turn),
        ("castling_rights", .num b.castling_rights),
        ("halfmove_clock", .num b.halfmove_clock),
        ("fullmove_number", .num b.fullmove_number)]

/-- `json.dumps(game, cls=GameEncoder)`: `Game.__dict__` in attribute
creation order, Discord member attributes reduced to `id`-only objects
(`GameEncoder.default`), appended last because they are only ever attached
after construction. -/
def encodeGame (g : Game) : Jval :=
  .obj ([("white_id", .num g.white_id), ("black_id", .num g.black_id),
         ("match_id", .num g.match_id), ("rated", .bool g.rated),
         ("last_move_san", encodeOptStr g.last_move_san),
         ("board", encodeBoard g.board)]
    ++ (match g.white with
        | some i => [("white", Jval.obj [("id", Jval.num i)])]
        | none => [])
    ++ (match g.black with
        | some i => [("black", Jval.obj [("id", Jval.num i)])]
        | none => []))

/-! ## `convert_game_state_to_game` (bot.py lines 149-181)

Builds `Game(white_id=0, black_id=0, match_id=0)` and then walks the parsed
JSON dict key by key: `white`/`black` become member lookups of the nested
`id`, `board` starts from a fresh `Board()` whose attributes are then set
from the nested dict — with `move_stack` entries appended as
`Move(from_square, to_square, promotion, drop)` — and every other key is a
plain `setattr`.  No move is replayed and nothing is legality-checked.
An exception escaping the function (malformed shape, missing move fields)
is modelled as `none`.  A `setattr` with a value of a type the typed model
cannot hold, and a `setattr` under a key the model does not track (such as
the omitted `_stack`), are the only divergences: Python would store the
value and fail later, the model rejects or ignores it; no claim exercises
these inputs. -/

def decodeMove (j : Jval) : Option Move :=
  match j with
  | .obj fs =>
      match jlookup fs "from_square", jlookup fs "to_square",
            jlookup fs "promotion", jlookup fs "drop" with
      | some (.num f), some (.num t), some p, some d =>
          (match p, d with
           | .num pn, .num dn => some ⟨f, t, some pn, some dn⟩
           | .num pn, .null => some ⟨f, t, some pn, none⟩
           | .null, .num dn => some ⟨f, t, none, some dn⟩
           | .null, .null => some ⟨f, t, none, none⟩
           | _, _ => none)
      | _, _, _, _ => none
  | _ => none

/-- A JSON array of plain numbers (the decoded `occupied_co` list). -/
def decodeNatList : List Jval → Option (List Nat)
  | [] => some []
  | .num n :: rest => (decodeNatList rest).map fun l => n :: l
  | _ :: _ => none

/-- The `move_stack` loop: each entry in order, aborting on a bad entry. -/
def decodeMoves : List Jval → Option (List Move)
  | [] => some []
  | j :: rest => do
      let m ← decodeMove j
      let ms ← decodeMoves rest
      pure (m :: ms)

/-- One `board` sub-key: `move_stack` appends decoded moves, every other
tracked attribute is assigned from the JSON value, unknown keys are dynamic
`setattr`s the model ignores. -/
def applyBoardField (b : Board) (k : String) (v : Jval) : Option Board :=
  if k = "move_stack" then
    match v with
    | .arr xs => (decodeMoves xs).map fun ms => { b with move_stack := b.move_stack ++ ms }
    | _ => none
  else if k = "occupied_co" then
    match v with
    | .arr xs => (decodeNatList xs).map fun l => { b with occupied_co := l }
    | _ => none
  else if k = "pawns" then match v with | .num n => some { b with pawns := n } | _ => none
  else if k = "knights" then match v with | .num n => some { b with knights := n } | _ => none
  else if k = "bishops" then match v with | .num n => some { b with bishops := n } | _ => none
  else if k = "rooks" then match v with | .num n => some { b with rooks := n } | _ => none
  else if k = "queens" then match v with | .num n => some { b with queens := n } | _ => none
  else if k = "kings" then match v with | .num n => some { b with kings := n } | _ => none
  else if k = "promoted" then match v with | .num n => some { b with promoted := n } | _ => none
  else if k = "occupied" then match v with | .num n => some { b with occupied := n } | _ => none
  else if k = "chess960" then match v with | .bool c => some { b with chess960 := c } | _ => none
  else if k = "ep_square" then
    match v with
    | .num n => some { b with ep_square := some n }
    | .null => some { b with ep_square := none }
    | _ => none
  else if k = "turn" then match v with | .bool t => some { b with turn := t } | _ => none
  else if k = "castling_rights" then match v with | .num n => some { b with castling_rights := n } | _ => none
  else if k = "halfmove_clock" then match v with | .num n => some { b with halfmove_clock := n } | _ => none
  else if k = "fullmove_number" then match v with | .num n => some { b with fullmove_number := n } | _ => none
  else some b

def decodeBoardFields : Board → List (String × Jval) → Option Board
  | b, [] => some b
  | b, (k, v) :: rest => do
      let b' ← applyBoardField b k v
      decodeBoardFields b' rest

/-- One top-level key of the game dict. -/
def applyGameField (g : Game) (k : String) (v : Jval) : Option Game :=
  if k = "white" then
    match v with
    | .obj fs => match jlookup fs "id" with
        | some (.num i) => some { g with white := some i }
        | _ => none
    | _ => none
  else if k = "black" then
    match v with
    | .obj fs => match jlookup fs "id" with
        | some (.num i) => some { g with black := some i }
        | _ => none
    | _ => none
  else if k = "board" then
    match v with
    | .obj fs => (decodeBoardFields Board.init fs).map fun b => { g with board := b }
    | _ => none
  else if k = "white_id" then match v with | .num n => some { g with white_id := n } | _ => none
  else if k = "black_id" then match v with | .num n => some { g with black_id := n } | _ => none
  else if k = "match_id" then match v with | .num n => some { g with match_id := n } | _ => none
  else if k = "rated" then match v with | .bool r => some { g with rated := r } | _ => none
  else if k = "last_move_san" then
    match v with
    | .str s => some { g with last_move_san := some s }
    | .null => some { g with last_move_san := none }
    | _ => none
  else some g

def decodeGameFields : Game → List (String × Jval) → Option Game
  | g, [] => some g
  | g, (k, v) :: rest => do
      let g' ← applyGameField g k v
      decodeGameFields g' rest

/-- `convert_game_state_to_game`: start from `Game(0, 0, 0)` and apply every
key of the parsed JSON object; any other top-level JSON value makes
`game_dict.keys()` raise. -/
def decode (j : Jval) : Option Game :=
  match j with
  | .obj fs => decodeGameFields ⟨0, 0, 0, true, none, Board.init, none, none⟩ fs
  | _ => none

/-! ## `storage/postgres.py`

`DBGameStates` and the two tables, with each SQL statement as a pure
function over an explicit database value. -/

inductive DBStatus where
  | invite | inProgress | declined | cancelled | done | stalemate | surrendered | won
deriving DecidableEq, Repr

/-- A row of the `matches` table, columns in schema order
(`created_at` is never read and is omitted). -/
structure MatchRow where
  match_id : Nat
  guild_id : Nat
  channel_id : Nat
  game_state : Option Jval
  user_id : Nat
  opponent_id : Option Nat
  winner_id : Option Nat
  loser_id : Option Nat
  status : DBStatus

/-- A row of the `user_stats` table (`user_stat_id` is never read and is
omitted; the pair `(guild_id, user_id)` is the conflict key). -/
structure StatsRow where
  guild_id : Nat
  user_id : Nat
  wins : Nat
  losses : Nat
  draws : Nat
  win_ratio : ℚ
deriving DecidableEq, Repr

/-- The database: both tables in insertion order plus the `matches` serial
counter. -/
structure DB where
  «matches» : List MatchRow
  user_stats : List StatsRow
  next_match_id : Nat

/-- `new_match(self, guild_id, channel_id, user_id, opponent_id)`: insert an
`'invite'` row.  Note the method takes four data parameters and the schema
has no `rated` column. -/
def new_match (db : DB) (guild_id channel_id user_id : Nat)
    (opponent_id : Option Nat) : DB :=
  { db with
    «matches» := db.«matches» ++
      [⟨db.next_match_id, guild_id, channel_id, none, user_id, opponent_id,
        none, none, .invite⟩]
    next_match_id := db.next_match_id + 1 }

/-- The dict `get_open_invites` builds from its selected row. -/
structure InviteRec where
  match_id : Nat
  user_id : Nat
  opponent_id : Option Nat
deriving DecidableEq, Repr

/-- `get_open_invites(channel_id)`: `fetchone` over rows with this channel
and status `'invite'`. -/
def get_open_invites (db : DB) (channel_id : Nat) : Option InviteRec :=
  (db.«matches».find? fun r =>
      r.channel_id = channel_id ∧ r.status = .invite).map
    fun r => ⟨r.match_id, r.user_id, r.opponent_id⟩

/-- `accept_invite(match_id, opponent_id)`: set `opponent_id` and status
`'in-progress'` on the rows with this `match_id`. -/
def accept_invite (db : DB) (match_id opponent_id : Nat) : DB :=
  { db with
    «matches» := db.«matches».map fun r =>
      if r.match_id = match_id then
        { r with opponent_id := some opponent_id, status := .inProgress }
      else r }

/-- `decline_invite(match_id)`: set status `'declined'`. -/
def decline_invite (db : DB) (match_id : Nat) : DB :=
  { db with
    «matches» := db.«matches».map fun r =>
      if r.match_id = match_id then { r with status := .declined } else r }

/-- `cancel_invite(match_id)`: set status `'cancelled'`. -/
def cancel_invite (db : DB) (match_id : Nat) : DB :=
  { db with
    «matches» := db.«matches».map fun r =>
      if r.match_id = match_id then { r with status := .cancelled } else r }

/-- The dict `get_current_game` builds: exactly the keys `match_id`,
`game_state`, `user_id`, `opponent_id` — there is no `rated` key. -/
structure GameRec where
  match_id : Nat
  game_state : Option Jval
  user_id : Nat
  opponent_id : Option Nat

/-- `get_current_game(channel_id)`: `fetchone` over rows with this channel
and status `'in-progress'`. -/
def get_current_game (db : DB) (channel_id : Nat) : Option GameRec :=
  (db.«matches».find? fun r =>
      r.channel_id = channel_id ∧ r.status = .inProgress).map
    fun r => ⟨r.match_id, r.game_state, r.user_id, r.opponent_id⟩

/-- A Python value a handler reads out of a storage dict. -/
inductive PyVal where
  | vnat (n : Nat)
  | vnone
  | vbool (b : Bool)
  | vjson (j : Jval)

/-- Subscripting the `get_current_game` dict: `rec[key]`.  `none` models the
`KeyError` of a key the dict does not hold — in particular
`rec["rated"]`. -/
def GameRec.get (rec : GameRec) (key : String) : Option PyVal :=
  if key = "match_id" then some (.vnat rec.match_id)
  else if key = "game_state" then
    some (match rec.game_state with | some j => .vjson j | none => .vnone)
  else if key = "user_id" then some (.vnat rec.user_id)
  else if key = "opponent_id" then
    some (match rec.opponent_id with | some n => .vnat n | none => .vnone)
  else none

/-- `surrender_game(match_id, winner_id, loser_id)`: status `'surrendered'`
with winner and loser recorded. -/
def surrender_game (db : DB) (match_id : Nat)
    (winner_id loser_id : Option Nat) : DB :=
  { db with
    «matches» := db.«matches».map fun r =>
      if r.match_id = match_id then
        { r with status := .surrendered, winner_id := winner_id,
                 loser_id := loser_id }
      else r }

/-- `match_won(match_id, winner_id, loser_id)`: status `'won'` with winner
and loser recorded. -/
def match_won (db : DB) (match_id : Nat)
    (winner_id loser_id : Option Nat) : DB :=
  { db with
    «matches» := db.«matches».map fun r =>
      if r.match_id = match_id then
        { r with status := .won, winner_id := winner_id, loser_id := loser_id }
      else r }

/-- `match_draw(match_id)`: status `'stalemate'`. -/
def match_draw (db : DB) (match_id : Nat) : DB :=
  { db with
    «matches» := db.«matches».map fun r =>
      if r.match_id = match_id then { r with status := .stalemate } else r }

/-- `save_game_state(match_id, game_state)`: overwrite the snapshot column. -/
def save_game_state (db : DB) (match_id : Nat) (game_state : Jval) : DB :=
  { db with
    «matches» := db.«matches».map fun r =>
      if r.match_id = match_id then { r with game_state := some game_state }
      else r }

/-- The row the `user_stats` upserts conflict on. -/
def findStats (db : DB) (guild_id user_id : Nat) : Option StatsRow :=
  db.user_stats.find? fun r => r.guild_id = guild_id ∧ r.user_id = user_id

/-- `add_user_stats_win`: insert `(wins=1, win_ratio=1)` (the other counters
take their column defaults `0`), or on conflict increment `wins` and set
`win_ratio = (wins + 1) / (wins + losses + 1 + draws / 2)` — every counter
on the right-hand side is the row's PRE-update value. -/
def add_user_stats_win (db : DB) (guild_id user_id : Nat) : DB :=
  match findStats db guild_id user_id with
  | none =>
      { db with user_stats := db.user_stats ++ [⟨guild_id, user_id, 1, 0, 0, 1⟩] }
  | some _ =>
      { db with
        user_stats := db.user_stats.map fun r =>
          if r.guild_id = guild_id ∧ r.user_id = user_id then
            { r with wins := r.wins + 1,
                     win_ratio := ((r.wins : ℚ) + 1) /
                       ((r.wins : ℚ) + (r.losses : ℚ) + 1 + (r.draws : ℚ) / 2) }
          else r }

/-- `add_user_stats_loss`: insert `(losses=1, win_ratio=0)`, or on conflict
increment `losses` and set `win_ratio = wins / (wins + losses + 1 +
draws / 2)` over the PRE-update counters. -/
def add_user_stats_loss (db : DB) (guild_id user_id : Nat) : DB :=
  match findStats db guild_id user_id with
  | none =>
      { db with user_stats := db.user_stats ++ [⟨guild_id, user_id, 0, 1, 0, 0⟩] }
  | some _ =>
      { db with
        user_stats := db.user_stats.map fun r =>
          if r.guild_id = guild_id ∧ r.user_id = user_id then
            { r with losses := r.losses + 1,
                     win_ratio := (r.wins : ℚ) /
                       ((r.wins : ℚ) + (r.losses : ℚ) + 1 + (r.draws : ℚ) / 2) }
          else r }

/-- `add_user_stats_draw`: insert `(draws=1, win_ratio=0)`, or on conflict
increment `draws` and set `win_ratio = wins / (wins + losses + 1 +
draws / 2)` over the PRE-update counters. -/
def add_user_stats_draw (db : DB) (guild_id user_id : Nat) : DB :=
  match findStats db guild_id user_id with
  | none =>
      { db with user_stats := db.user_stats ++ [⟨guild_id, user_id, 0, 0, 1, 0⟩] }
  | some _ =>
      { db with
        user_stats := db.user_stats.map fun r =>
          if r.guild_id = guild_id ∧ r.user_id = user_id then
            { r with draws := r.draws + 1,
                     win_ratio := (r.wins : ℚ) /
                       ((r.wins : ℚ) + (r.losses : ℚ) + 1 + (r.draws : ℚ) / 2) }
          else r }

/-- `get_user_stats(guild_id, user_id)`: the stored counters and ratio of
the row, or absent. -/
def get_user_stats (db : DB) (guild_id user_id : Nat) : Option StatsRow :=
  findStats db guild_id user_id

/-! ## The `Chess` cog command handlers (bot.py)

Each handler is a function from the database and the command's inputs to an
`Outcome` (what was sent back, abstracted) and the database afterwards. -/

/-- What a handler invocation ends with:
* `board` — `render_game_board` replied with the game embed;
* `msg` — a plain `ctx.response.send_message` reply (success texts carry a
  short tag, the full chat strings interpolate user mentions);
* `err` — `send_error` replied with an error embed, carrying the string the
  handler passed (description, or title for the handlers that pass only a
  title);
* `exc` — an uncaught Python exception of the named type escaped the
  handler. -/
inductive Outcome where
  | board
  | msg (s : String)
  | err (s : String)
  | exc (s : String)
deriving DecidableEq, Repr

/-- The position-dependent services of the rules engine (python-chess), the
external collaborator boundary: SAN parsing relative to a position with its
three error kinds (`IllegalMoveError`, `AmbiguousMoveError`,
`InvalidMoveError`), the legal-move set, SAN rendering, move application,
and the terminal predicates. -/
inductive SanError where
  | illegal | ambiguous | invalid
deriving DecidableEq, Repr

structure RulesEngine where
  parse_san : Board → String → Except SanError Move
  legal_moves : Board → List Move
  san : Board → Move → String
  push : Board → Move → Board
  is_stalemate : Board → Bool
  is_checkmate : Board → Bool

/-- The number of data parameters of `PostgresStorage.new_match`:
`def new_match(self, guild_id, channel_id, user_id, opponent_id)`. -/
def new_match_param_count : Nat := 4

/-- The positional arguments `Chess.new` passes to `GameStorage.db.new_match`
(bot.py lines 200-204): guild, channel, caller, optional opponent id, and
the `rated` flag — five of them. -/
def new_match_call_args (guild_id channel_id user_id : Nat)
    (opponent_id : Option Nat) (rated : Bool) : List PyVal :=
  [.vnat guild_id, .vnat channel_id, .vnat user_id,
   (match opponent_id with | some o => .vnat o | none => .vnone),
   .vbool rated]

/-- `Chess.new(ctx, opponent=None, rated=True)`: reject a self-challenge,
reject when `get_current_game` finds an in-progress match in the channel,
otherwise call `new_match`.  Python binds the call's arguments before
running the body: five positional arguments against four parameters raise
`TypeError`, so the insert branch is reached only if the arities agree. -/
def Chess.new (db : DB) (guild_id channel_id user_id : Nat)
    (opponent : Option Nat) (rated : Bool) : Outcome × DB :=
  if opponent = some user_id then
    (.err "You cannot challenge yourself", db)
  else
    match get_current_game db channel_id with
    | some _ => (.err "Another game is already active in this channel.", db)
    | none =>
        if (new_match_call_args guild_id channel_id user_id opponent
              rated).length = new_match_param_count then
          (.msg "invite-created", new_match db guild_id channel_id user_id opponent)
        else
          (.exc "TypeError", db)

/-- `Chess.decline(ctx)`: succeed exactly when an open invite exists and
`invite['opponent_id'] == ctx.user.id` — for an untargeted invite
`opponent_id` is `None` and the comparison is false. -/
def Chess.decline (db : DB) (channel_id user_id : Nat) : Outcome × DB :=
  match get_open_invites db channel_id with
  | some inv =>
      if inv.opponent_id = some user_id then
        (.msg "invite-declined", decline_invite db inv.match_id)
      else (.err "No invite was found to decline", db)
  | none => (.err "No invite was found to decline", db)

/-- `Chess.cancel(ctx)`: succeed exactly when an open invite exists and the
caller is its initiator. -/
def Chess.cancel (db : DB) (channel_id user_id : Nat) : Outcome × DB :=
  match get_open_invites db channel_id with
  | some inv =>
      if inv.user_id = user_id then
        (.msg "invite-cancelled", cancel_invite db inv.match_id)
      else (.err "You have no open invites exist, so there is nothing to cancel", db)
  | none => (.err "You have no open invites exist, so there is nothing to cancel", db)

/-- The `Game(white_id, black_id, invite['match_id'])` constructed by
`Chess.accept`: `rated` and `last_move_san` take their Python defaults
(`True`, `None`) and the board is a fresh starting `Board()`. -/
def acceptGame (white_id black_id match_id : Nat) : Game :=
  { white_id := white_id, black_id := black_id, match_id := match_id }

/-- `Chess.accept(ctx)`: reject when there is no invite, when the caller is
the initiator, or when the invite is targeted at someone else; otherwise
order the pair `[initiator, accepter]` by `random.sample` (the draw is the
`coin` parameter: `true` puts the initiator on white), build the `Game`,
transition the match with `accept_invite`, and persist the encoded game
with `save_game_state`. -/
def Chess.accept (db : DB) (channel_id user_id : Nat) (coin : Bool) :
    Outcome × DB :=
  match get_open_invites db channel_id with
  | none => (.err "There are no invites for anybody in this channel.", db)
  | some inv =>
      if inv.user_id = user_id then
        (.err "You cannot accept your own invitation", db)
      else if inv.opponent_id ≠ none ∧ inv.opponent_id ≠ some user_id then
        (.err "Sorry, the invite in this channel is for a specific user", db)
      else
        let white_id := if coin then inv.user_id else user_id
        let black_id := if coin then user_id else inv.user_id
        let game := acceptGame white_id black_id inv.match_id
        let db1 := accept_invite db inv.match_id user_id
        let db2 := save_game_state db1 inv.match_id (encodeGame game)
        (.board, db2)

/-- The tail of `Chess.move` after a move was pushed and persisted: the
stalemate branch, then the checkmate branch, each recording the terminal
status and then reading `game_rec['rated']` — a key `get_current_game`
never returns, so the read raises `KeyError` (the unreachable stats branch
is still written out; a `None` participant id there would insert a
NULL-keyed stats row, which the model elides). -/
def moveTerminal (db : DB) (guild_id user_id : Nat) (rec : GameRec)
    (eng : RulesEngine) (b2 : Board) : Outcome × DB :=
  let afterCheckmate : DB → Outcome × DB := fun d =>
    if eng.is_checkmate b2 then
      let winner_id := user_id
      let loser_id : Option Nat :=
        if rec.user_id = user_id then rec.opponent_id else some rec.user_id
      let d1 := match_won d rec.match_id (some winner_id) loser_id
      match rec.get "rated" with
      | some (.vbool true) =>
          let d2 := add_user_stats_win d1 guild_id winner_id
          let d3 := match loser_id with
            | some l => add_user_stats_loss d2 guild_id l
            | none => d2
          (.board, d3)
      | some _ => (.board, d1)
      | none => (.exc "KeyError", d1)
    else (.board, d)
  if eng.is_stalemate b2 then
    let d1 := match_draw db rec.match_id
    match rec.get "rated" with
    | some (.vbool true) =>
        let d2 := add_user_stats_draw d1 guild_id rec.user_id
        let d3 := match rec.opponent_id with
          | some o => add_user_stats_draw d2 guild_id o
          | none => d2
        afterCheckmate d3
    | some _ => afterCheckmate d1
    | none => (.exc "KeyError", d1)
  else afterCheckmate db

/-- `Chess.move(ctx, move)` (bot.py lines 267-334): load the current game,
rebuild the `Game`, check the caller is a participant and that it is their
turn; then try `Move.from_uci` first and fall back to `board.parse_san`
when the UCI parse raised or produced a falsy (null) move, mapping the
three SAN error kinds to distinct messages; re-validate the move against
`board.legal_moves`; on success record the SAN text, push the move,
persist the re-encoded game, and run the terminal bookkeeping. -/
def Chess.move (eng : RulesEngine) (db : DB)
    (guild_id channel_id user_id : Nat) (mstr : String) : Outcome × DB :=
  match get_current_game db channel_id with
  | none => (.err "No game is currently in progress", db)
  | some rec =>
      match rec.game_state with
      | none => (.exc "TypeError", db)
      | some gs =>
          match decode gs with
          | none => (.exc "JSONDecodeError", db)
          | some g =>
              if user_id ≠ g.white_id ∧ user_id ≠ g.black_id then
                (.msg "Only the players of the current match can make moves", db)
              else
                let color : Bool := user_id == g.white_id
                if color ≠ g.board.turn then
                  (.err "It is not your turn to make a move", db)
                else
                  let parsed : Except SanError Move :=
                    match Move.from_uci mstr with
                    | some m =>
                        if m.truthy then .ok m else eng.parse_san g.board mstr
                    | none => eng.parse_san g.board mstr
                  match parsed with
                  | .error .illegal => (.err ("Illegal move of " ++ mstr), db)
                  | .error .ambiguous => (.err ("Ambiguous move of " ++ mstr), db)
                  | .error .invalid => (.err ("Invalid move of " ++ mstr), db)
                  | .ok bm =>
                      if bm ∈ eng.legal_moves g.board then
                        let san := eng.san g.board bm
                        let b2 := eng.push g.board bm
                        let g2 := { g with last_move_san := some san, board := b2 }
                        let db1 := save_game_state db rec.match_id (encodeGame g2)
                        moveTerminal db1 guild_id user_id rec eng b2
                      else
                        (.err "Illegal move for the selected piece", db)

/-- `Chess.surrender(ctx)`: load the current game record, check the caller
is a participant, record the surrender, and then read `game_rec['rated']`
— a key `get_current_game` never returns, so the handler raises `KeyError`
after the status write and before any stats update (the unreachable stats
branch is still written out as in `moveTerminal`). -/
def Chess.surrender (db : DB) (guild_id channel_id user_id : Nat) :
    Outcome × DB :=
  match get_current_game db channel_id with
  | none => (.err "No active games were found.  Use `/new` to start a new match.", db)
  | some rec =>
      if user_id ≠ rec.user_id ∧ some user_id ≠ rec.opponent_id then
        (.err "You are not a participant in the current game, so you can't surrender", db)
      else
        let loser_id := user_id
        let winner_id : Option Nat :=
          if rec.user_id = user_id then rec.opponent_id else some rec.user_id
        let db1 := surrender_game db rec.match_id winner_id (some loser_id)
        match rec.get "rated" with
        | some (.vbool true) =>
            let db2 := match winner_id with
              | some w => add_user_stats_win db1 guild_id w
              | none => db1
            let db3 := add_user_stats_loss db2 guild_id loser_id
            (.board, db3)
        | some _ => (.board, db1)
        | none => (.exc "KeyError", db1)

/-! ## Concrete instances used to evaluate the development -/

/-- Object-field lookup on a JSON value. -/
def jget : Jval → String → Option Jval
  | .obj fs, k => jlookup fs k
  | _, _ => none

/-- A freshly initialised database: both tables empty. -/
def dbEmpty : DB := ⟨[], [], 1⟩

/-- A channel-3 invite targeted at user 20, initiated by user 10. -/
def rowTargetedInvite : MatchRow := ⟨1, 5, 3, none, 10, some 20, none, none, .invite⟩

def dbTargetedInvite : DB := ⟨[rowTargetedInvite], [], 2⟩

/-- An untargeted (open) channel-3 invite initiated by user 10. -/
def rowOpenInvite : MatchRow := ⟨2, 5, 3, none, 10, none, none, none, .invite⟩

def dbOpenInvite : DB := ⟨[rowOpenInvite], [], 3⟩

/-- The live game of the in-progress sample match: user 10 is white, user
20 is black, the board is at the starting position. -/
def gameIP : Game := { white_id := 10, black_id := 20, match_id := 9 }

/-- An in-progress channel-4 match between users 10 and 20 whose persisted
snapshot is the encoding of `gameIP`. -/
def rowInProgress : MatchRow :=
  ⟨9, 5, 4, some (encodeGame gameIP), 10, some 20, none, none, .inProgress⟩

def dbInProgress : DB := ⟨[rowInProgress], [], 10⟩

/-- A rules engine for exercising the `move` handler: SAN parsing always
reports `IllegalMoveError` (as python-chess does for the null move written
as SAN), the legal-move set of every position is exactly `[e2e4]`, and no
position is stalemate or checkmate. -/
def engNull : RulesEngine where
  parse_san := fun _ _ => .error .illegal
  legal_moves := fun _ => [⟨12, 28, none, none⟩]
  san := fun _ _ => "e4"
  push := fun b _ => b
  is_stalemate := fun _ => false
  is_checkmate := fun _ => false

/-- `engNull` except that every position counts as stalemate, to drive the
`move` handler into its terminal-draw branch. -/
def engStale : RulesEngine := { engNull with is_stalemate := fun _ => true }

/-- A board with no pieces at all and black to move: with an empty move
history this is inconsistent with what replaying that history from scratch
would produce (the starting position). -/
def emptyBoard : Board :=
  { Board.init with
      pawns := 0, knights := 0, bishops := 0, rooks := 0,
      queens := 0, kings := 0, occupied := 0, occupied_co := [0, 0],
      turn := false }

/-- A game whose stored derived position is `emptyBoard` while its stored
move history is empty. -/
def gInconsistent : Game :=
  { white_id := 1, black_id := 2, match_id := 3, board := emptyBoard }

/-- The persisted snapshot of `gInconsistent`. -/
def inconsistentState : Jval := encodeGame gInconsistent

/-! ## Codec lemmas -/

/-- Decoding a serialized move recovers it field for field. -/
theorem decodeMove_encode (m : Move) : decodeMove (encodeMove m) = some m := by
  rcases m with ⟨f, t, p, d⟩
  cases p <;> cases d <;> rfl

/-- The `move_stack` loop recovers a serialized move list in order. -/
theorem decodeMoves_map (ms : List Move) :
    decodeMoves (ms.map encodeMove) = some ms := by
  induction ms with
  | nil => rfl
  | cons m rest ih => simp [decodeMoves, decodeMove_encode, ih]

/-- A serialized list of numbers decodes to itself. -/
theorem decodeNatList_map (l : List Nat) :
    decodeNatList (l.map Jval.num) = some l := by
  induction l with
  | nil => rfl
  | cons n rest ih => simp [decodeNatList, ih]

/-- `convert_game_state_to_game` inverts `json.dumps(game, cls=GameEncoder)`
exactly: every attribute — the board position fields, the move stack, the
player ids, `match_id`, `rated` and `last_move_san` — comes back as stored. -/
theorem decode_encode (g : Game) : decode (encodeGame g) = some g := by
  rcases g with ⟨w, b, mid, r, lms,
    ⟨oc, pw, kn, bi, ro, qu, ki, pr, oc2, c9, ep, ms, tu, ca, hm, fm⟩, gw, gb⟩
  cases lms <;> cases ep <;> cases gw <;> cases gb <;>
    simp [encodeGame, encodeBoard, encodeOptNat, encodeOptStr, decode,
      decodeGameFields, applyGameField, decodeBoardFields, applyBoardField,
      decodeMoves_map, decodeNatList_map, jlookup, Board.init]

/-! ## The claims -/

/-- C8: Round-trip law: for every game state `g`, `decode (encode g)`
succeeds and returns a game whose board (and hence its legal-move set under
any legal-move function, its side to move, and its move history) and whose
white/black identifiers, `match_id` and last-move notation all equal
`g`'s. -/
theorem c8_round_trip (g : Game) :
    ∃ g', decode (encodeGame g) = some g'
      ∧ (∀ legalMoves : Board → List Move, legalMoves g'.board = legalMoves g.board)
      ∧ g'.board.turn = g.board.turn
      ∧ g'.board.move_stack = g.board.move_stack
      ∧ g'.white_id = g.white_id ∧ g'.black_id = g.black_id
      ∧ g'.match_id = g.match_id ∧ g'.last_move_san = g.last_move_san :=
  ⟨g, decode_encode g, fun _ => rfl, rfl, rfl, rfl, rfl, rfl, rfl⟩

/-- C5 (counterexample): the snapshot `inconsistentState` stores an empty
move history together with a derived position that replaying that (empty)
history through any rules engine could never produce — an empty board with
black to move instead of the starting position.  `decode` nevertheless
succeeds and returns exactly the stored position: it neither replays the
history nor fails, contradicting the claim that decoding reconstructs the
board by replay and rejects inconsistent data. -/
theorem c5_counterexample :
    decode inconsistentState = some gInconsistent
    ∧ gInconsistent.board.move_stack = []
    ∧ gInconsistent.board ≠ Board.init :=
  ⟨decode_encode gInconsistent, rfl, by decide⟩

/-- C5 (amended): `decode` trusts the persisted snapshot: for every stored
board `b` — whether or not it is consistent with its own move history — it
returns `b` verbatim, with the stored moves appended to the move stack
unreplayed and unchecked; only structurally malformed input (a non-object
top level, here a number or a string) fails, and it fails by an uncaught
exception rather than by a dedicated decode error. -/
theorem c5_decode_no_replay (wid bid mid : Nat) (is_rated : Bool)
    (lms : Option String) (b : Board) :
    decode (encodeGame ⟨wid, bid, mid, is_rated, lms, b, none, none⟩) =
      some (⟨wid, bid, mid, is_rated, lms, b, none, none⟩ : Game)
    ∧ (∀ n : Nat, decode (.num n) = none)
    ∧ (∀ s : String, decode (.str s) = none) :=
  ⟨decode_encode _, fun _ => rfl, fun _ => rfl⟩

/-- C3: in a channel with no in-progress game and a caller who is not the
named opponent, `/new` passes both guards and reaches the call
`GameStorage.db.new_match(guild, channel, user, opponent, rated)` — five
positional arguments against the four parameters of
`PostgresStorage.new_match` — so Python raises `TypeError` before any row
is inserted: no Invite is created, the `rated` flag is never stored (the
schema has no such column), and the command does not complete normally. -/
theorem c3_new_typeerror :
    Chess.new dbEmpty 5 3 10 (some 20) true = (.exc "TypeError", dbEmpty)
    ∧ (new_match_call_args 5 3 10 (some 20) true).length = 5
    ∧ new_match_param_count = 4
    ∧ dbEmpty.«matches» = [] :=
  ⟨rfl, rfl, rfl, rfl⟩

/-- C4: terminal transitions record the terminal status but never reach the
stat updates, rated or not: `/surrender` by participant 10 of the
in-progress match writes status `surrendered` with winner 20 / loser 10 and
then raises `KeyError` reading `game_rec['rated']` (a key
`get_current_game` never returns), leaving `user_stats` untouched; a move
that ends in stalemate likewise records status `stalemate` and raises the
same `KeyError` before any stat update. -/
theorem c4_terminal_keyerror :
    (Chess.surrender dbInProgress 5 4 10).1 = .exc "KeyError"
    ∧ (Chess.surrender dbInProgress 5 4 10).2.«matches».map MatchRow.status =
        [.surrendered]
    ∧ (Chess.surrender dbInProgress 5 4 10).2.«matches».map MatchRow.winner_id =
        [some 20]
    ∧ (Chess.surrender dbInProgress 5 4 10).2.«matches».map MatchRow.loser_id =
        [some 10]
    ∧ (Chess.surrender dbInProgress 5 4 10).2.user_stats = []
    ∧ (Chess.move engStale dbInProgress 5 4 10 "e2e4").1 = .exc "KeyError"
    ∧ (Chess.move engStale dbInProgress 5 4 10 "e2e4").2.«matches».map
        MatchRow.status = [.stalemate]
    ∧ (Chess.move engStale dbInProgress 5 4 10 "e2e4").2.user_stats = [] :=
  ⟨rfl, rfl, rfl, rfl, rfl, rfl, rfl, rfl⟩

/-- C10: whenever `/accept` succeeds, the `Game` it constructs and persists
carries `rated = true` (the Python default of `Game.__init__`, which
`Chess.accept` never overrides — the invite's chosen flag is not even
available, the schema having no `rated` column), so the persisted
`game_state` snapshot always embeds `"rated": true`. -/
theorem c10_accept_rated (db : DB) (channel_id user_id : Nat) (coin : Bool)
    (inv : InviteRec)
    (h1 : get_open_invites db channel_id = some inv)
    (h2 : inv.user_id ≠ user_id)
    (h3 : inv.opponent_id = none ∨ inv.opponent_id = some user_id) :
    ∃ g : Game, g.rated = true
      ∧ (Chess.accept db channel_id user_id coin).2 =
          save_game_state (accept_invite db inv.match_id user_id)
            inv.match_id (encodeGame g)
      ∧ jget (encodeGame g) "rated" = some (.bool true) := by
  refine ⟨acceptGame (if coin then inv.user_id else user_id)
    (if coin then user_id else inv.user_id) inv.match_id, rfl, ?_, ?_⟩
  · have hguard : ¬(inv.opponent_id ≠ none ∧ inv.opponent_id ≠ some user_id) := by
      rcases h3 with h | h <;> simp [h]
    simp [Chess.accept, h1, h2, hguard]
  · rfl

/-- C10 (witness): at the targeted invite of `dbTargetedInvite`, accepted
by its target, user 20. -/
theorem c10_accept_rated_witness :
    ∃ g : Game, g.rated = true
      ∧ (Chess.accept dbTargetedInvite 3 20 true).2 =
          save_game_state (accept_invite dbTargetedInvite 1 20) 1 (encodeGame g)
      ∧ jget (encodeGame g) "rated" = some (.bool true) :=
  c10_accept_rated dbTargetedInvite 3 20 true ⟨1, 10, some 20⟩ rfl
    (by decide) (Or.inr rfl)

/-- C1 (counterexample): a channel that already holds an Invite-status
match does not make `/new` reject with the already-active error —
`get_current_game` looks only for `'in-progress'` rows, so the guard
passes (and the handler then dies in `new_match`'s arity mismatch instead
of creating the second invite). -/
theorem c1_counterexample :
    (∃ r ∈ dbTargetedInvite.«matches», r.channel_id = 3 ∧ r.status = DBStatus.invite)
    ∧ Chess.new dbTargetedInvite 5 3 11 none true = (.exc "TypeError", dbTargetedInvite)
    ∧ Outcome.exc "TypeError" ≠
        .err "Another game is already active in this channel." :=
  ⟨⟨rowTargetedInvite, List.mem_singleton.mpr rfl, rfl, rfl⟩, rfl, by decide⟩

/-- C1 (amended): for a caller who is not challenging themselves, `/new`
rejects with the already-active error exactly when some match in the
channel has status `'in-progress'`; an existing Invite-status match does
not trigger the rejection, so the at-most-one invariant is enforced for
InProgress only — and when no InProgress match exists the handler raises
`TypeError` in the `new_match` call (see C3) instead of creating the
invite. -/
theorem c1_new_guard (db : DB) (guild_id channel_id user_id : Nat)
    (opponent : Option Nat) (is_rated : Bool)
    (hself : opponent ≠ some user_id) :
    ((Chess.new db guild_id channel_id user_id opponent is_rated).1 =
        .err "Another game is already active in this channel."
      ↔ ∃ r ∈ db.«matches», r.channel_id = channel_id ∧ r.status = DBStatus.inProgress)
    ∧ ((¬ ∃ r ∈ db.«matches», r.channel_id = channel_id ∧ r.status = DBStatus.inProgress) →
        Chess.new db guild_id channel_id user_id opponent is_rated =
          (.exc "TypeError", db)) := by
  have hiff : (get_current_game db channel_id).isSome ↔
      ∃ r ∈ db.«matches», r.channel_id = channel_id ∧ r.status = DBStatus.inProgress := by
    simp [get_current_game, List.find?_isSome]
  constructor
  · cases hcg : get_current_game db channel_id with
    | none =>
        constructor
        · intro h
          exfalso
          simp [Chess.new, hself, hcg, new_match_call_args, new_match_param_count] at h
        · intro hex
          exfalso
          rw [← hiff] at hex
          simp [hcg] at hex
    | some gr =>
        constructor
        · intro _
          rw [← hiff]
          simp [hcg]
        · intro _
          simp [Chess.new, hself, hcg]
  · intro hnone
    have hcg : get_current_game db channel_id = none := by
      cases hcg : get_current_game db channel_id with
      | none => rfl
      | some gr => exact absurd (hiff.mp (by simp [hcg])) hnone
    simp [Chess.new, hself, hcg, new_match_call_args, new_match_param_count]

/-- C1 (witness): in the empty database, with user 10 challenging user 20
in channel 3. -/
theorem c1_new_guard_witness :
    ((Chess.new dbEmpty 5 3 10 (some 20) true).1 =
        .err "Another game is already active in this channel."
      ↔ ∃ r ∈ dbEmpty.«matches», r.channel_id = 3 ∧ r.status = DBStatus.inProgress)
    ∧ ((¬ ∃ r ∈ dbEmpty.«matches», r.channel_id = 3 ∧ r.status = DBStatus.inProgress) →
        Chess.new dbEmpty 5 3 10 (some 20) true = (.exc "TypeError", dbEmpty)) :=
  c1_new_guard dbEmpty 5 3 10 (some 20) true (by decide)

/-- C9 (counterexample): an untargeted (open) invite exists in channel 3,
and user 20 — who per the claim satisfies the precondition, the invite
being untargeted — still cannot decline it: `invite['opponent_id']` is
`None`, never equal to the caller's id, so `/decline` rejects with the
no-invite error and changes nothing. -/
theorem c9_counterexample :
    get_open_invites dbOpenInvite 3 = some ⟨2, 10, none⟩
    ∧ Chess.decline dbOpenInvite 3 20 =
        (.err "No invite was found to decline", dbOpenInvite) :=
  ⟨rfl, rfl⟩

/-- C9 (amended): `/decline` succeeds — transitioning the invite to
Declined — exactly when an open Invite exists in the channel AND it is
targeted at the caller (`invite.opponent_id == caller`); an untargeted
invite can never be declined, and every other case is rejected with the
no-invite-to-decline error and no state change. -/
theorem c9_decline_guard (db : DB) (channel_id user_id : Nat) :
    (∀ inv, get_open_invites db channel_id = some inv →
       (inv.opponent_id = some user_id →
          Chess.decline db channel_id user_id =
            (.msg "invite-declined", decline_invite db inv.match_id)
          ∧ ∀ r ∈ (decline_invite db inv.match_id).«matches»,
              r.match_id = inv.match_id → r.status = DBStatus.declined)
       ∧ (inv.opponent_id ≠ some user_id →
          Chess.decline db channel_id user_id =
            (.err "No invite was found to decline", db)))
    ∧ (get_open_invites db channel_id = none →
        Chess.decline db channel_id user_id =
          (.err "No invite was found to decline", db)) := by
  constructor
  · intro inv h
    constructor
    · intro htarget
      refine ⟨by simp [Chess.decline, h, htarget], ?_⟩
      intro r hr hmid
      simp only [decline_invite, List.mem_map] at hr
      obtain ⟨a, _, rfl⟩ := hr
      by_cases hm : a.match_id = inv.match_id
      · simp [hm]
      · simp only [if_neg hm] at hmid
        exact absurd hmid hm
    · intro hne
      simp [Chess.decline, h, hne]
  · intro h
    simp [Chess.decline, h]

/-- If a list holds no row matching the key, searching the appended list
searches only the appendix. -/
theorem find?_append_none {α} (l₁ l₂ : List α) (p : α → Bool)
    (h : l₁.find? p = none) : (l₁ ++ l₂).find? p = l₂.find? p := by
  induction l₁ with
  | nil => rfl
  | cons a rest ih =>
      by_cases hp : p a
      · rw [List.find?_cons_of_pos _ hp] at h
        exact absurd h (by simp)
      · rw [List.find?_cons_of_neg _ hp] at h
        rw [List.cons_append, List.find?_cons_of_neg _ hp]
        exact ih h

/-- Updating exactly the rows that match the key commutes with looking the
key up: the first matching row comes back updated. -/
theorem findStats_update (l : List StatsRow) (g u : Nat)
    (upd : StatsRow → StatsRow)
    (hupd : ∀ s, (upd s).guild_id = s.guild_id ∧ (upd s).user_id = s.user_id)
    (r : StatsRow)
    (h : l.find? (fun s => s.guild_id = g ∧ s.user_id = u) = some r) :
    (l.map fun s => if s.guild_id = g ∧ s.user_id = u then upd s else s).find?
      (fun s => s.guild_id = g ∧ s.user_id = u) = some (upd r) := by
  induction l with
  | nil => simp at h
  | cons a rest ih =>
      by_cases hp : a.guild_id = g ∧ a.user_id = u
      · rw [List.find?_cons_of_pos _ (by simpa using hp)] at h
        injection h with h
        subst h
        rw [List.map_cons, if_pos hp, List.find?_cons_of_pos]
        simp [(hupd a).1, (hupd a).2, hp]
      · rw [List.find?_cons_of_neg _ (by simpa using hp)] at h
        rw [List.map_cons, if_neg hp, List.find?_cons_of_neg _ (by simpa using hp)]
        exact ih h

/-- C2 (counterexample): the first win recorded for a previously absent
`(guild 7, user 42)` row stores `win_ratio = 1` — the upsert's insert arm
writes the literal `1`, not the claimed `wins / (wins + losses + 1 +
draws/2) = 0.5`. -/
theorem c2_counterexample :
    get_user_stats (add_user_stats_win dbEmpty 7 42) 7 42 =
      some ⟨7, 42, 1, 0, 0, 1⟩
    ∧ ((1 : ℚ) ≠ 1 / 2) :=
  ⟨rfl, by norm_num⟩

/-- C2 (amended): a win/loss/draw upsert on an absent row inserts the
literal counters and ratio `(wins=1, ratio=1)` / `(losses=1, ratio=0)` /
`(draws=1, ratio=0)`; on an existing row it increments its counter and
stores `numerator / (wins + losses + 1 + draws/2)` computed over the
PRE-update counters (numerator `wins + 1` for a win, `wins` otherwise) —
for win and loss upserts this equals `wins' / (wins' + losses' + draws'/2)`
over the post-update counters, with no `+1`: a row reaching
`wins=3, losses=1, draws=0` holds `0.75`, not the claimed `0.6`. -/
theorem c2_upsert_ratio (db : DB) (guild_id user_id : Nat) :
    (findStats db guild_id user_id = none →
        get_user_stats (add_user_stats_win db guild_id user_id) guild_id user_id =
          some ⟨guild_id, user_id, 1, 0, 0, 1⟩
      ∧ get_user_stats (add_user_stats_loss db guild_id user_id) guild_id user_id =
          some ⟨guild_id, user_id, 0, 1, 0, 0⟩
      ∧ get_user_stats (add_user_stats_draw db guild_id user_id) guild_id user_id =
          some ⟨guild_id, user_id, 0, 0, 1, 0⟩)
    ∧ (∀ r, findStats db guild_id user_id = some r →
        get_user_stats (add_user_stats_win db guild_id user_id) guild_id user_id =
          some ⟨r.guild_id, r.user_id, r.wins + 1, r.losses, r.draws,
            ((r.wins : ℚ) + 1) /
              ((r.wins : ℚ) + (r.losses : ℚ) + 1 + (r.draws : ℚ) / 2)⟩
      ∧ get_user_stats (add_user_stats_loss db guild_id user_id) guild_id user_id =
          some ⟨r.guild_id, r.user_id, r.wins, r.losses + 1, r.draws,
            (r.wins : ℚ) /
              ((r.wins : ℚ) + (r.losses : ℚ) + 1 + (r.draws : ℚ) / 2)⟩
      ∧ get_user_stats (add_user_stats_draw db guild_id user_id) guild_id user_id =
          some ⟨r.guild_id, r.user_id, r.wins, r.losses, r.draws + 1,
            (r.wins : ℚ) /
              ((r.wins : ℚ) + (r.losses : ℚ) + 1 + (r.draws : ℚ) / 2)⟩) := by
  constructor
  · intro h
    refine ⟨?_, ?_, ?_⟩ <;>
    · simp only [add_user_stats_win, add_user_stats_loss, add_user_stats_draw, h]
      simp only [get_user_stats, findStats]
      rw [find?_append_none _ _ _ h]
      simp
  · intro r h
    simp only [findStats] at h
    refine ⟨?_, ?_, ?_⟩
    · simp only [add_user_stats_win, findStats, h, get_user_stats]
      exact findStats_update _ _ _
        (fun s => ⟨s.guild_id, s.user_id, s.wins + 1, s.losses, s.draws,
          ((s.wins : ℚ) + 1) /
            ((s.wins : ℚ) + (s.losses : ℚ) + 1 + (s.draws : ℚ) / 2)⟩)
        (fun s => ⟨rfl, rfl⟩) r h
    · simp only [add_user_stats_loss, findStats, h, get_user_stats]
      exact findStats_update _ _ _
        (fun s => ⟨s.guild_id, s.user_id, s.wins, s.losses + 1, s.draws,
          (s.wins : ℚ) /
            ((s.wins : ℚ) + (s.losses : ℚ) + 1 + (s.draws : ℚ) / 2)⟩)
        (fun s => ⟨rfl, rfl⟩) r h
    · simp only [add_user_stats_draw, findStats, h, get_user_stats]
      exact findStats_update _ _ _
        (fun s => ⟨s.guild_id, s.user_id, s.wins, s.losses, s.draws + 1,
          (s.wins : ℚ) /
            ((s.wins : ℚ) + (s.losses : ℚ) + 1 + (s.draws : ℚ) / 2)⟩)
        (fun s => ⟨rfl, rfl⟩) r h

/-- After `accept_invite` then `save_game_state` on the same `match_id`,
every row carrying that id is InProgress with the accepter as opponent and
the snapshot stored. -/
theorem accept_save_row (db : DB) (mid u : Nat) (gs : Jval) :
    ∀ r ∈ (save_game_state (accept_invite db mid u) mid gs).«matches»,
      r.match_id = mid →
      r.status = DBStatus.inProgress ∧ r.opponent_id = some u ∧
        r.game_state = some gs := by
  intro r hr hmid
  simp only [save_game_state, accept_invite, List.map_map, List.mem_map,
    Function.comp] at hr
  obtain ⟨a, _, rfl⟩ := hr
  by_cases hm : a.match_id = mid
  · simp [hm]
  · simp only [if_neg hm] at hmid ⊢
    exact absurd hmid hm

/-- C7: `/accept` is rejected with no state change when no open Invite
exists, when the caller is the invite's initiator, or when the invite is
targeted at someone else; when it succeeds, the two colours go to the two
distinct participants (one order per draw of the random sample), the match
row becomes InProgress with `opponent_id` set to the accepter, and the
initial game state (fresh starting board) is persisted on it. -/
theorem c7_accept_correct (db : DB) (channel_id user_id : Nat) (coin : Bool) :
    (get_open_invites db channel_id = none →
       Chess.accept db channel_id user_id coin =
         (.err "There are no invites for anybody in this channel.", db))
    ∧ ∀ inv, get_open_invites db channel_id = some inv →
      ((inv.user_id = user_id →
          Chess.accept db channel_id user_id coin =
            (.err "You cannot accept your own invitation", db))
       ∧ (inv.user_id ≠ user_id → inv.opponent_id ≠ none →
            inv.opponent_id ≠ some user_id →
          Chess.accept db channel_id user_id coin =
            (.err "Sorry, the invite in this channel is for a specific user", db))
       ∧ (inv.user_id ≠ user_id →
            (inv.opponent_id = none ∨ inv.opponent_id = some user_id) →
          ∃ w b, ((w = inv.user_id ∧ b = user_id) ∨ (w = user_id ∧ b = inv.user_id))
            ∧ w ≠ b
            ∧ Chess.accept db channel_id user_id coin =
                (.board, save_game_state (accept_invite db inv.match_id user_id)
                   inv.match_id (encodeGame (acceptGame w b inv.match_id)))
            ∧ (acceptGame w b inv.match_id).board = Board.init
            ∧ ∀ r ∈ (Chess.accept db channel_id user_id coin).2.«matches»,
                r.match_id = inv.match_id →
                r.status = DBStatus.inProgress ∧ r.opponent_id = some user_id ∧
                  r.game_state = some (encodeGame (acceptGame w b inv.match_id)))) := by
  constructor
  · intro h
    simp [Chess.accept, h]
  · intro inv h
    refine ⟨?_, ?_, ?_⟩
    · intro hown
      simp [Chess.accept, h, hown]
    · intro hno hsome hne
      simp [Chess.accept, h, hno, hsome, hne]
    · intro hno htarget
      have hguard : ¬(inv.opponent_id ≠ none ∧ inv.opponent_id ≠ some user_id) := by
        rcases htarget with h2 | h2 <;> simp [h2]
      have hres : Chess.accept db channel_id user_id coin =
          (.board, save_game_state (accept_invite db inv.match_id user_id)
             inv.match_id (encodeGame (acceptGame
               (if coin then inv.user_id else user_id)
               (if coin then user_id else inv.user_id) inv.match_id))) := by
        simp [Chess.accept, h, hno, hguard]
      refine ⟨if coin then inv.user_id else user_id,
              if coin then user_id else inv.user_id, ?_, ?_, hres, rfl, ?_⟩
      · cases coin <;> simp
      · cases coin <;> simp [hno, Ne.symm hno]
      · rw [hres]
        exact accept_save_row db inv.match_id user_id _

/-- C6 (counterexample): the move string `"0000"` parses successfully as
UCI — `Move.from_uci "0000"` returns the null move — yet SAN
interpretation is still attempted: the null move is falsy in Python, so
`if not board_move` re-dispatches to `board.parse_san`, whose error
classification (`Illegal move of 0000`, python-chess raising
`IllegalMoveError` for a SAN null move) is what the user sees, rather than
the post-parse legality rejection (`Illegal move for the selected piece`)
that the claimed "SAN only if UCI fails to parse" policy would produce. -/
theorem c6_counterexample :
    Move.from_uci "0000" = some Move.null
    ∧ Chess.move engNull dbInProgress 5 4 10 "0000" =
        (.err ("Illegal move of " ++ "0000"), dbInProgress)
    ∧ Outcome.err ("Illegal move of " ++ "0000") ≠
        .err "Illegal move for the selected piece" :=
  ⟨rfl, rfl, by decide⟩

/-- C6 (amended): in a loaded game with the caller a participant on turn:
a move string whose UCI parse succeeds with a truthy (non-null) move is
resolved without consulting SAN at all (the handler's result does not
depend on `parse_san`), and is rejected as `Illegal move for the selected
piece` — unapplied and unpersisted — when it is not in the legal-move set;
SAN interpretation is attempted exactly when the UCI parse fails or
returns the falsy null move, its three error kinds surfacing as the
distinct messages illegal/ambiguous/invalid with no state change, and a
SAN-parsed move outside the legal-move set is likewise rejected without
being applied or persisted. -/
theorem c6_move_parsing (eng : RulesEngine) (db : DB)
    (guild_id channel_id user_id : Nat) (mstr : String)
    (rec : GameRec) (gs : Jval) (g : Game)
    (h1 : get_current_game db channel_id = some rec)
    (h2 : rec.game_state = some gs)
    (h3 : decode gs = some g)
    (h4 : user_id = g.white_id ∨ user_id = g.black_id)
    (h5 : (user_id == g.white_id) = g.board.turn) :
    (∀ m, Move.from_uci mstr = some m → m.truthy = true →
       (∀ ps, Chess.move { eng with parse_san := ps } db guild_id channel_id user_id mstr =
          Chess.move eng db guild_id channel_id user_id mstr)
       ∧ (m ∉ eng.legal_moves g.board →
          Chess.move eng db guild_id channel_id user_id mstr =
            (.err "Illegal move for the selected piece", db)))
    ∧ ((Move.from_uci mstr = none ∨
          (∃ m, Move.from_uci mstr = some m ∧ m.truthy = false)) →
       (eng.parse_san g.board mstr = .error .illegal →
          Chess.move eng db guild_id channel_id user_id mstr =
            (.err ("Illegal move of " ++ mstr), db))
       ∧ (eng.parse_san g.board mstr = .error .ambiguous →
          Chess.move eng db guild_id channel_id user_id mstr =
            (.err ("Ambiguous move of " ++ mstr), db))
       ∧ (eng.parse_san g.board mstr = .error .invalid →
          Chess.move eng db guild_id channel_id user_id mstr =
            (.err ("Invalid move of " ++ mstr), db))
       ∧ (∀ m, eng.parse_san g.board mstr = .ok m →
            m ∉ eng.legal_moves g.board →
          Chess.move eng db guild_id channel_id user_id mstr =
            (.err "Illegal move for the selected piece", db))) := by
  have hpart : ¬(user_id ≠ g.white_id ∧ user_id ≠ g.black_id) := by
    rcases h4 with h | h <;> simp [h]
  constructor
  · intro m hm htr
    constructor
    · intro ps
      simp [Chess.move, h1, h2, h3, hpart, h5, hm, htr, moveTerminal, GameRec.get]
    · intro hnl
      simp [Chess.move, h1, h2, h3, hpart, h5, hm, htr, hnl]
  · intro hdisj
    refine ⟨?_, ?_, ?_, ?_⟩
    · intro hsan
      rcases hdisj with hnone | ⟨m, hm, hf⟩
      · simp [Chess.move, h1, h2, h3, hpart, h5, hnone, hsan]
      · simp [Chess.move, h1, h2, h3, hpart, h5, hm, hf, hsan]
    · intro hsan
      rcases hdisj with hnone | ⟨m, hm, hf⟩
      · simp [Chess.move, h1, h2, h3, hpart, h5, hnone, hsan]
      · simp [Chess.move, h1, h2, h3, hpart, h5, hm, hf, hsan]
    · intro hsan
      rcases hdisj with hnone | ⟨m, hm, hf⟩
      · simp [Chess.move, h1, h2, h3, hpart, h5, hnone, hsan]
      · simp [Chess.move, h1, h2, h3, hpart, h5, hm, hf, hsan]
    · intro m2 hsan hnl
      rcases hdisj with hnone | ⟨m, hm, hf⟩
      · simp [Chess.move, h1, h2, h3, hpart, h5, hnone, hsan, hnl]
      · simp [Chess.move, h1, h2, h3, hpart, h5, hm, hf, hsan, hnl]

/-- C6 (witness): the in-progress match of `dbInProgress`, its white
player (user 10) on turn, submitting the move string `a2a3`. -/
theorem c6_move_parsing_witness :
    (∀ m, Move.from_uci "a2a3" = some m → m.truthy = true →
       (∀ ps, Chess.move { engNull with parse_san := ps } dbInProgress 5 4 10 "a2a3" =
          Chess.move engNull dbInProgress 5 4 10 "a2a3")
       ∧ (m ∉ engNull.legal_moves gameIP.board →
          Chess.move engNull dbInProgress 5 4 10 "a2a3" =
            (.err "Illegal move for the selected piece", dbInProgress)))
    ∧ ((Move.from_uci "a2a3" = none ∨
          (∃ m, Move.from_uci "a2a3" = some m ∧ m.truthy = false)) →
       (engNull.parse_san gameIP.board "a2a3" = .error .illegal →
          Chess.move engNull dbInProgress 5 4 10 "a2a3" =
            (.err ("Illegal move of " ++ "a2a3"), dbInProgress))
       ∧ (engNull.parse_san gameIP.board "a2a3" = .error .ambiguous →
          Chess.move engNull dbInProgress 5 4 10 "a2a3" =
            (.err ("Ambiguous move of " ++ "a2a3"), dbInProgress))
       ∧ (engNull.parse_san gameIP.board "a2a3" = .error .invalid →
          Chess.move engNull dbInProgress 5 4 10 "a2a3" =
            (.err ("Invalid move of " ++ "a2a3"), dbInProgress))
       ∧ (∀ m, engNull.parse_san gameIP.board "a2a3" = .ok m →
            m ∉ engNull.legal_moves gameIP.board →
          Chess.move engNull dbInProgress 5 4 10 "a2a3" =
            (.err "Illegal move for the selected piece", dbInProgress))) :=
  c6_move_parsing engNull dbInProgress 5 4 10 "a2a3"
    ⟨9, some (encodeGame gameIP), 10, some 20⟩ (encodeGame gameIP) gameIP
    rfl rfl (decode_encode gameIP) (Or.inl rfl) rfl

end ChessBot


